import Mathlib

/-!
Verification of the face-comparison service (`src/server.js`) against its
natural-language specification.

The JavaScript source is shallowly embedded below.  Numbers that the code
manipulates as IEEE doubles are modelled as exact rationals (`ℚ`), matching
the arithmetic the specification describes (`floor`, `round to n decimals`,
`min`, `max`, comparisons against the fixed thresholds 0.5 / 0.7).  Strings
are Lean `String`s; optional JSON fields are `Option`s.  Wall-clock readings
(`Date.now()` differences) are abstracted as `ℕ` parameters: only their
presence or absence in a response body is specified, never their value.
-/

namespace FacialApp

/-- Rounding to `n` decimal places, as JavaScript `x.toFixed(n)` followed by
`parseFloat` behaves on the non-negative values this service produces
(round half away from zero = round half up for non-negatives). -/
def roundTo (n : ℕ) (x : ℚ) : ℚ :=
  ((round (x * 10 ^ n) : ℤ) : ℚ) / 10 ^ n

/-- Confidence band attached to a comparison (`server.js` line 216). -/
inductive Confidence where
  | high
  | medium
  | low
deriving DecidableEq

/-- Dimensions of a `canvas` object; the allocated extent of the raster. -/
structure CanvasDims where
  width : ℕ
  height : ℕ
deriving DecidableEq

/-- Scale factor of `resizeImage` (`server.js` line 63):
`Math.min(maxSize / width, maxSize / height)`.  The source computes the two
quotients in IEEE doubles; here they are exact rationals.  The correctly
rounded double quotient can sit one ulp below the exact value, which can
lower the downstream `Math.floor` by one pixel (for example `49 * (128/49)`
is `127.99999999999999` in doubles and floors to 127, while the exact value
is 128).  Theorems below therefore only assert facts that are insensitive to
that one-ulp gap: upper bounds, lower bounds with one pixel of slack, and
floor values at inputs where the double and rational computations agree. -/
def resizeScale (w h maxSize : ℕ) : ℚ :=
  min ((maxSize : ℚ) / w) ((maxSize : ℚ) / h)

/-- Embedding of `resizeImage` (`server.js` lines 55-77): a canvas is created
with extent `maxSize × maxSize`, but lines 68-69 then reassign
`canvas.width = Math.floor(width*scale)` and
`canvas.height = Math.floor(height*scale)` before drawing, so the returned
canvas has the scaled content dimensions as its allocated extent.  The
floors are taken of exact rational products; see `resizeScale` for how this
idealises the source's double arithmetic and which statements remain
faithful to it. -/
def resizeImage (w h maxSize : ℕ) : CanvasDims :=
  let scale := resizeScale w h maxSize
  { width := (⌊(w : ℚ) * scale⌋).toNat
    height := (⌊(h : ℚ) * scale⌋).toNat }

/-- Modelled from the spec: `faceapi.euclideanDistance` (the external
face-api.js capability, not part of `src/`) returns the Euclidean distance
between two descriptor vectors.  To keep the model executable we work with
the squared distance; theorems constrain a distance value `d` by
`0 ≤ d ∧ d ^ 2 = euclidDistSq d1 d2`, which characterises the Euclidean
distance exactly. -/
def euclidDistSq (d1 d2 : List ℚ) : ℚ :=
  (List.zipWith (fun x y => (x - y) ^ 2) d1 d2).sum

/-- Raw (pre-rounding) similarity (`server.js` line 208):
`Math.max(0, Math.min(100, (1 - distance) * 100))`. -/
def similarityRaw (dist : ℚ) : ℚ :=
  max 0 (min 100 ((1 - dist) * 100))

/-- Result object returned by `compareFaces`; fields absent from a branch's
object literal are `none`. -/
structure CompareResult where
  success : Bool
  matched : Bool
  distance : Option ℚ
  similarity : Option ℚ
  threshold : Option ℚ
  confidence : Option Confidence
  message : Option String
deriving DecidableEq

/-- Embedding of the no-face branch of `compareFaces` (`server.js` lines
187-198): when either detection is missing the function returns (not throws)
an object with `success: false`, `match: false` and a message naming the
side(s) that lacked a face. -/
def noFaceResult (det1 det2 : Option (List ℚ)) : CompareResult :=
  { success := false
    matched := false
    distance := none
    similarity := none
    threshold := none
    confidence := none
    message := some (if det1.isNone && det2.isNone then
        "No faces detected in both images"
      else if det1.isNone then
        "No face detected in URL image"
      else
        "No face detected in base64 image") }

/-- Embedding of the comparison branch of `compareFaces` (`server.js` lines
201-218), as a function of the Euclidean distance `dist` between the two
descriptors. -/
def comparisonResult (dist : ℚ) : CompareResult :=
  let threshold : ℚ := 1 / 2
  let m : Bool := decide (dist < threshold)
  { success := true
    matched := m
    distance := some (roundTo 4 dist)
    similarity := some (roundTo 2 (similarityRaw dist))
    threshold := some threshold
    confidence := some (if m then Confidence.high
      else if dist < 7 / 10 then Confidence.medium
      else Confidence.low)
    message := none }

/-- Embedding of `compareFaces` (`server.js` lines 187-218) after the two
detections have settled.  `det1`/`det2` are the optional descriptors of the
URL side and the base64 side; `dist` stands for the value
`faceapi.euclideanDistance(detection1.descriptor, detection2.descriptor)`
and is constrained in the theorems by `0 ≤ dist` and
`dist ^ 2 = euclidDistSq det1 det2`. -/
def compareFacesModel (det1 det2 : Option (List ℚ)) (dist : ℚ) : CompareResult :=
  if det1.isSome && det2.isSome then comparisonResult dist
  else noFaceResult det1 det2

/-- JSON body of an HTTP response, with its status code.  Fields absent from
the object literal in the source are `none`. -/
structure HttpResponse where
  status : ℕ
  success : Option Bool
  error : Option String
  message : Option String
  matched : Option Bool
  distance : Option ℚ
  similarity : Option ℚ
  threshold : Option ℚ
  confidence : Option Confidence
  processingTimeMs : Option ℕ
deriving DecidableEq

/-- Embedding of the 503 response of `POST /compare` (`server.js` lines
243-247): the body carries no `processingTimeMs`. -/
def modelNotReady503 : HttpResponse :=
  { status := 503
    success := some false
    error := some "Models still loading"
    message := some "Models still loading"
    matched := none, distance := none, similarity := none
    threshold := none, confidence := none
    processingTimeMs := none }

/-- Embedding of the missing-field 400 response (`server.js` lines 253-257):
no `processingTimeMs` in the body. -/
def missingFields400 : HttpResponse :=
  { status := 400
    success := some false
    error := some "Missing imageUrl or base64Image"
    message := some "Missing imageUrl or base64Image"
    matched := none, distance := none, similarity := none
    threshold := none, confidence := none
    processingTimeMs := none }

/-- Embedding of the invalid-URL 400 response (`server.js` lines 261-265):
no `processingTimeMs` in the body. -/
def invalidUrl400 : HttpResponse :=
  { status := 400
    success := some false
    error := some "Invalid image URL  format"
    message := some "Invalid URL format"
    matched := none, distance := none, similarity := none
    threshold := none, confidence := none
    processingTimeMs := none }

/-- Embedding of the global-timeout 408 response emitted by the middleware
(`server.js` lines 20-24): no `processingTimeMs` in the body. -/
def timeout408 : HttpResponse :=
  { status := 408
    success := some false
    error := some "Request Timeout"
    message := some "Processing took too long"
    matched := none, distance := none, similarity := none
    threshold := none, confidence := none
    processingTimeMs := none }

/-- Embedding of the internal-failure 500 response (`server.js` lines
287-292): the body does carry `processingTimeMs`. -/
def internalError500 (msg : String) (t : ℕ) : HttpResponse :=
  { status := 500
    success := some false
    error := some msg
    message := some msg
    matched := none, distance := none, similarity := none
    threshold := none, confidence := none
    processingTimeMs := some t }

/-- Embedding of the success path of the `/compare` handler (`server.js`
lines 277-280): `res.json({...result, processingTimeMs: totalTime})` with the
default status 200. -/
def respondCompare (r : CompareResult) (t : ℕ) : HttpResponse :=
  { status := 200
    success := some r.success
    error := none
    message := r.message
    matched := some r.matched
    distance := r.distance
    similarity := r.similarity
    threshold := r.threshold
    confidence := r.confidence
    processingTimeMs := some t }

/-- JavaScript falsiness of an optional string field destructured from the
request body: `undefined` (absent) and the empty string are falsy. -/
def jsFalsy : Option String → Bool
  | none => true
  | some s => s.isEmpty

/-- Embedding of JavaScript `s.startsWith(pre)`: character-wise prefix test. -/
def jsStartsWith (s pre : String) : Bool :=
  pre.toList.isPrefixOf s.toList

/-- Embedding of the validation part of the `POST /compare` handler
(`server.js` lines 242-266), in source order: the `modelsLoaded` gate first,
then the missing-field check `!imageUrl || !base64Image`, then the scheme
check.  `Except.ok ()` marks the unique fall-through to `compareFaces`, i.e.
the point where acquisition (network fetch / base64 decode) begins; every
`Except.error` response is sent before any acquisition work. -/
def compareRoute (modelsLoaded : Bool) (imageUrl base64Image : Option String) :
    Except HttpResponse Unit :=
  if modelsLoaded = false then Except.error modelNotReady503
  else if jsFalsy imageUrl || jsFalsy base64Image then Except.error missingFields400
  else if ¬ (jsStartsWith (imageUrl.getD "") "http://"
      ∨ jsStartsWith (imageUrl.getD "") "https://") then Except.error invalidUrl400
  else Except.ok ()

/-- Word character of the JavaScript regex class `\w`: `[A-Za-z0-9_]`. -/
def isWordChar (c : Char) : Bool :=
  c.isAlpha || c.isDigit || c = '_'

/-- Literal matcher: `dropLit lit cs` returns `some rest` exactly when
`cs = lit ++ rest`, consuming the literal character by character. -/
def dropLit : List Char → List Char → Option (List Char)
  | [], rest => some rest
  | _ :: _, [] => none
  | l :: ls, c :: cs => if c = l then dropLit ls cs else none

/-- Embedding of the data-URI stripping of `loadImageFromBase64`
(`server.js` line 128): `base64String.replace(/^data:image\/\w+;base64,/, '')`.
The regex has no `i` flag, so the literal `data:image/` is matched
case-sensitively; `\w+` requires one or more word characters; greedy
matching of `\w+` stops at the first non-word character, which must then
start the literal `;base64,`. -/
def stripDataHeader (s : String) : String :=
  match dropLit "data:image/".toList s.toList with
  | none => s
  | some rest =>
    let tok := rest.takeWhile isWordChar
    let rest2 := rest.dropWhile isWordChar
    if tok = [] then s
    else
      match dropLit ";base64,".toList rest2 with
      | none => s
      | some tail => String.mk tail

/-- Value of a character in the base64 alphabet, `none` for any other
character. -/
def b64Val (c : Char) : Option ℕ :=
  if 'A' ≤ c ∧ c ≤ 'Z' then some (c.toNat - 65)
  else if 'a' ≤ c ∧ c ≤ 'z' then some (c.toNat - 97 + 26)
  else if '0' ≤ c ∧ c ≤ '9' then some (c.toNat - 48 + 52)
  else if c = '+' then some 62
  else if c = '/' then some 63
  else none

/-- Repacking of 6-bit base64 values into 8-bit bytes: each full group of
four values yields three bytes; a trailing group of two or three values
yields one or two bytes; a single leftover value yields nothing. -/
def b64DecodeVals : List ℕ → List ℕ
  | a :: b :: c :: d :: rest =>
    (a * 4 + b / 16) :: ((b % 16) * 16 + c / 4) :: ((c % 4) * 64 + d) ::
      b64DecodeVals rest
  | [a, b] => [a * 4 + b / 16]
  | [a, b, c] => [a * 4 + b / 16, (b % 16) * 16 + c / 4]
  | _ => []

/-- Modelled from the spec: `Buffer.from(payload, 'base64')` (Node standard
library, not part of `src/`) — "malformed base64 must not raise at the
decode-to-bytes stage — invalid characters are treated permissively
(best-effort decode)".  Characters outside the base64 alphabet are skipped
and the remaining values are repacked into bytes. -/
def nodeB64Decode (s : String) : List ℕ :=
  b64DecodeVals (s.toList.filterMap b64Val)

/-- Byte string produced by the decode-to-bytes stage of
`loadImageFromBase64` (`server.js` lines 128-131): strip the data-URI
header, then decode the remainder permissively. -/
def base64DecodedBytes (s : String) : List ℕ :=
  nodeB64Decode (stripDataHeader s)

/-! ## Theorems -/

/-- C1 counterexample: with no descriptor on the URL side, `compareFaces`
returns a result whose `success` field is `false` (and the handler serialises
`success: false` into the 200 body), so the outcome is not a successful
result as the claim states. -/
theorem c1_counterexample :
    (compareFacesModel none (some [(0 : ℚ)]) 0).success = false ∧
    (respondCompare (compareFacesModel none (some [(0 : ℚ)]) 0) 5).success =
      some false :=
  ⟨rfl, rfl⟩

/-- C1 (amended): whenever at least one detection yields no descriptor,
`compareFaces` returns (rather than throws) a result that the handler serves
with HTTP status 200, carrying `match = false` and a message identifying
which side(s) lacked a face — but the result is marked `success = false`,
not as a successful determination. -/
theorem c1_no_face_outcome (det1 det2 : Option (List ℚ)) (dist : ℚ) (t : ℕ)
    (h : det1.isNone ∨ det2.isNone) :
    (compareFacesModel det1 det2 dist).success = false ∧
    (compareFacesModel det1 det2 dist).matched = false ∧
    (compareFacesModel det1 det2 dist).message =
      some (if det1.isNone && det2.isNone then "No faces detected in both images"
        else if det1.isNone then "No face detected in URL image"
        else "No face detected in base64 image") ∧
    (respondCompare (compareFacesModel det1 det2 dist) t).status = 200 := by
  cases det1 <;> cases det2 <;>
    simp_all [compareFacesModel, noFaceResult, respondCompare]

/-- Closed instance of `c1_no_face_outcome` at a concrete no-face input. -/
theorem c1_no_face_outcome_witness :
    (compareFacesModel none (some [(0 : ℚ)]) 0).matched = false ∧
    (respondCompare (compareFacesModel none (some [(0 : ℚ)]) 0) 5).status = 200 :=
  ⟨(c1_no_face_outcome none (some [0]) 0 5 (Or.inl rfl)).2.1,
    (c1_no_face_outcome none (some [0]) 0 5 (Or.inl rfl)).2.2.2⟩

/-- C2: for any two compared descriptors, with `dist` the Euclidean distance
between them (characterised by `0 ≤ dist` and `dist ^ 2 = euclidDistSq`),
the returned `distance` is `dist` rounded to 4 decimals, `match` holds
exactly when the unrounded distance is below 0.5, confidence is `high` on a
match, `medium` on a non-match with distance below 0.7, `low` otherwise, and
at `dist = 0.3` the result has similarity 70, a match and high confidence. -/
theorem c2_comparator_correct (d1 d2 : List ℚ) (dist : ℚ)
    (hnn : 0 ≤ dist) (hsq : dist ^ 2 = euclidDistSq d1 d2) :
    ((compareFacesModel (some d1) (some d2) dist).distance =
      some (roundTo 4 dist)) ∧
    ((compareFacesModel (some d1) (some d2) dist).matched = true ↔
      dist < 1 / 2) ∧
    ((compareFacesModel (some d1) (some d2) dist).matched = true →
      (compareFacesModel (some d1) (some d2) dist).confidence =
        some Confidence.high) ∧
    ((compareFacesModel (some d1) (some d2) dist).matched = false →
      dist < 7 / 10 →
      (compareFacesModel (some d1) (some d2) dist).confidence =
        some Confidence.medium) ∧
    ((compareFacesModel (some d1) (some d2) dist).matched = false →
      ¬ dist < 7 / 10 →
      (compareFacesModel (some d1) (some d2) dist).confidence =
        some Confidence.low) ∧
    (dist = 3 / 10 →
      (compareFacesModel (some d1) (some d2) dist).similarity = some 70 ∧
      (compareFacesModel (some d1) (some d2) dist).matched = true ∧
      (compareFacesModel (some d1) (some d2) dist).confidence =
        some Confidence.high) := by
  have hmod : compareFacesModel (some d1) (some d2) dist = comparisonResult dist :=
    rfl
  have hconf : (comparisonResult dist).confidence =
      some (if dist < 1 / 2 then Confidence.high
        else if dist < 7 / 10 then Confidence.medium else Confidence.low) := by
    simp [comparisonResult]
  refine ⟨rfl, ?_, ?_, ?_, ?_, ?_⟩
  · simp [hmod, comparisonResult]
  · intro hm
    have hlt : dist < 1 / 2 := by
      simpa [hmod, comparisonResult] using hm
    rw [hmod, hconf, if_pos hlt]
  · intro hm h7
    have hge : ¬ dist < 1 / 2 := by
      simpa [hmod, comparisonResult] using hm
    rw [hmod, hconf, if_neg hge, if_pos h7]
  · intro hm h7
    have hge : ¬ dist < 1 / 2 := by
      simpa [hmod, comparisonResult] using hm
    rw [hmod, hconf, if_neg hge, if_neg h7]
  · rintro rfl
    have hs : similarityRaw (3 / 10) = 70 := by
      simp only [similarityRaw]
      norm_num
    have hr : roundTo 2 (70 : ℚ) = 70 := by
      simp only [roundTo]
      rw [show ((70 : ℚ) * 10 ^ 2) = ((7000 : ℤ) : ℚ) by norm_num, round_intCast]
      norm_num
    have h3 : (3 : ℚ) / 10 < 1 / 2 := by norm_num
    refine ⟨?_, ?_, ?_⟩
    · show some (roundTo 2 (similarityRaw (3 / 10))) = some 70
      rw [hs, hr]
    · rw [hmod]
      show decide ((3 : ℚ) / 10 < 1 / 2) = true
      exact decide_eq_true h3
    · rw [hmod, hconf, if_pos h3]

/-- Closed instance of `c2_comparator_correct` at descriptors `[0.3]`, `[0]`,
whose Euclidean distance is exactly `0.3`. -/
theorem c2_comparator_correct_witness :
    (0 : ℚ) ≤ 3 / 10 ∧ ((3 : ℚ) / 10) ^ 2 = euclidDistSq [3 / 10] [0] ∧
    ((compareFacesModel (some [(3 : ℚ) / 10]) (some [0]) (3 / 10)).similarity =
      some 70 ∧
    (compareFacesModel (some [(3 : ℚ) / 10]) (some [0]) (3 / 10)).matched = true ∧
    (compareFacesModel (some [(3 : ℚ) / 10]) (some [0]) (3 / 10)).confidence =
      some Confidence.high) :=
  ⟨by norm_num, by norm_num [euclidDistSq],
    (c2_comparator_correct [3 / 10] [0] (3 / 10) (by norm_num)
      (by norm_num [euclidDistSq])).2.2.2.2.2 rfl⟩

/-- C9: field-presence invariant of every `compareFaces` result: `distance`
and `similarity` are present exactly when both sides produced a descriptor,
and `message` is present exactly when `success` is false or a no-face
condition occurred. -/
theorem c9_field_invariant (det1 det2 : Option (List ℚ)) (dist : ℚ) :
    ((compareFacesModel det1 det2 dist).distance.isSome =
      (det1.isSome && det2.isSome)) ∧
    ((compareFacesModel det1 det2 dist).similarity.isSome =
      (det1.isSome && det2.isSome)) ∧
    ((compareFacesModel det1 det2 dist).message.isSome = true ↔
      ((compareFacesModel det1 det2 dist).success = false ∨
        det1.isNone = true ∨ det2.isNone = true)) := by
  cases det1 <;> cases det2 <;>
    simp [compareFacesModel, comparisonResult, noFaceResult]

/-- Closed instance of `c9_field_invariant` at a pair of present
descriptors. -/
theorem c9_field_invariant_witness :
    (compareFacesModel (some [(0 : ℚ)]) (some [0]) 0).distance.isSome =
      ((some [(0 : ℚ)]).isSome && (some [(0 : ℚ)]).isSome) :=
  (c9_field_invariant (some [0]) (some [0]) 0).1

/-- C7 counterexample: the 400 validation bodies, the 503 body and the 408
global-timeout body all lack the `processingTimeMs` field. -/
theorem c7_counterexample :
    missingFields400.processingTimeMs = none ∧
    invalidUrl400.processingTimeMs = none ∧
    modelNotReady503.processingTimeMs = none ∧
    timeout408.processingTimeMs = none :=
  ⟨rfl, rfl, rfl, rfl⟩

/-- C7 (amended): among the error responses, only the 500 internal-failure
body carries the elapsed processing time; the 400 validation bodies, the 503
model-not-ready body and the 408 global-timeout body omit it. -/
theorem c7_processing_time_only_500 (msg : String) (t : ℕ) :
    (internalError500 msg t).processingTimeMs = some t ∧
    (internalError500 msg t).status = 500 ∧
    missingFields400.processingTimeMs = none ∧
    invalidUrl400.processingTimeMs = none ∧
    modelNotReady503.processingTimeMs = none ∧
    timeout408.processingTimeMs = none :=
  ⟨rfl, rfl, rfl, rfl, rfl, rfl⟩

/-- Closed instance of `c7_processing_time_only_500` at a concrete message
and elapsed time. -/
theorem c7_processing_time_only_500_witness :
    (internalError500 "URL fetch timeout" 12).processingTimeMs = some 12 :=
  (c7_processing_time_only_500 "URL fetch timeout" 12).1

/-! ### Helper lemmas about `resizeImage` and rounding -/

theorem resizeImage_eq (w h m ow oh : ℕ) (s : ℚ)
    (hs : resizeScale w h m = s)
    (hw1 : ((ow : ℤ) : ℚ) ≤ (w : ℚ) * s) (hw2 : (w : ℚ) * s < (ow : ℤ) + 1)
    (hh1 : ((oh : ℤ) : ℚ) ≤ (h : ℚ) * s) (hh2 : (h : ℚ) * s < (oh : ℤ) + 1) :
    resizeImage w h m = { width := ow, height := oh } := by
  have h1 : ⌊(w : ℚ) * s⌋ = (ow : ℤ) := Int.floor_eq_iff.mpr ⟨hw1, hw2⟩
  have h2 : ⌊(h : ℚ) * s⌋ = (oh : ℤ) := Int.floor_eq_iff.mpr ⟨hh1, hh2⟩
  show CanvasDims.mk (⌊(w : ℚ) * resizeScale w h m⌋).toNat
      (⌊(h : ℚ) * resizeScale w h m⌋).toNat = CanvasDims.mk ow oh
  rw [hs, h1, h2, Int.toNat_natCast, Int.toNat_natCast]

theorem roundTo_eq_of_bounds (n : ℕ) (x : ℚ) (z : ℤ)
    (h1 : (z : ℚ) ≤ x * 10 ^ n + 1 / 2) (h2 : x * 10 ^ n + 1 / 2 < z + 1) :
    roundTo n x = (z : ℚ) / 10 ^ n := by
  unfold roundTo
  have hz : round (x * 10 ^ n) = z := by
    rw [round_eq]
    exact Int.floor_eq_iff.mpr ⟨h1, h2⟩
  rw [hz]

theorem round_mono_q {x y : ℚ} (h : x ≤ y) : round x ≤ round y := by
  rw [round_eq, round_eq]
  exact Int.floor_mono (by linarith)

theorem scaled_le_128_left (w h : ℕ) (hw : 0 < w) :
    (w : ℚ) * resizeScale w h 128 ≤ 128 := by
  have hw' : (0 : ℚ) < w := by exact_mod_cast hw
  have h1 : resizeScale w h 128 ≤ (128 : ℚ) / w := min_le_left _ _
  calc (w : ℚ) * resizeScale w h 128 ≤ (w : ℚ) * ((128 : ℚ) / w) :=
        mul_le_mul_of_nonneg_left h1 hw'.le
    _ = 128 := by field_simp

theorem scaled_le_128_right (w h : ℕ) (hh : 0 < h) :
    (h : ℚ) * resizeScale w h 128 ≤ 128 := by
  have hh' : (0 : ℚ) < h := by exact_mod_cast hh
  have h1 : resizeScale w h 128 ≤ (128 : ℚ) / h := min_le_right _ _
  calc (h : ℚ) * resizeScale w h 128 ≤ (h : ℚ) * ((128 : ℚ) / h) :=
        mul_le_mul_of_nonneg_left h1 hh'.le
    _ = 128 := by field_simp

theorem floor_toNat_le (x : ℚ) (hx : x ≤ 128) : (⌊x⌋).toNat ≤ 128 := by
  have h1 : ⌊x⌋ ≤ ⌊(128 : ℚ)⌋ := Int.floor_mono hx
  have h2 : ⌊(128 : ℚ)⌋ = 128 := by
    rw [show (128 : ℚ) = ((128 : ℤ) : ℚ) by norm_num, Int.floor_intCast]
  omega

theorem resize_width_le (w h : ℕ) (hw : 0 < w) : (resizeImage w h 128).width ≤ 128 :=
  floor_toNat_le _ (scaled_le_128_left w h hw)

theorem resize_height_le (w h : ℕ) (hh : 0 < h) : (resizeImage w h 128).height ≤ 128 :=
  floor_toNat_le _ (scaled_le_128_right w h hh)

theorem resize_height_exact (w h : ℕ) (hw : 0 < w) (hh : 0 < h) (hwh : w ≤ h) :
    (resizeImage w h 128).height = 128 := by
  have hw' : (0 : ℚ) < w := by exact_mod_cast hw
  have hh' : (0 : ℚ) < h := by exact_mod_cast hh
  have hmin : resizeScale w h 128 = (128 : ℚ) / h :=
    min_eq_right (div_le_div_of_nonneg_left (by norm_num) hw' (by exact_mod_cast hwh))
  show (⌊(h : ℚ) * resizeScale w h 128⌋).toNat = 128
  rw [hmin, show (h : ℚ) * ((128 : ℚ) / h) = 128 by field_simp,
    show (128 : ℚ) = ((128 : ℤ) : ℚ) by norm_num, Int.floor_intCast]
  rfl

theorem resize_width_exact (w h : ℕ) (hw : 0 < w) (hh : 0 < h) (hwh : h ≤ w) :
    (resizeImage w h 128).width = 128 := by
  have hw' : (0 : ℚ) < w := by exact_mod_cast hw
  have hh' : (0 : ℚ) < h := by exact_mod_cast hh
  have hmin : resizeScale w h 128 = (128 : ℚ) / w :=
    min_eq_left (div_le_div_of_nonneg_left (by norm_num) hh' (by exact_mod_cast hwh))
  show (⌊(w : ℚ) * resizeScale w h 128⌋).toNat = 128
  rw [hmin, show (w : ℚ) * ((128 : ℚ) / w) = 128 by field_simp,
    show (128 : ℚ) = ((128 : ℤ) : ℚ) by norm_num, Int.floor_intCast]
  rfl

theorem resize_width_full_le (w h : ℕ) (hw : 0 < w) (hh : 0 < h) (hwh : w ≤ h)
    (hfull : (resizeImage w h 128).width = 128) : h ≤ w := by
  have hw' : (0 : ℚ) < w := by exact_mod_cast hw
  have hh' : (0 : ℚ) < h := by exact_mod_cast hh
  have hmin : resizeScale w h 128 = (128 : ℚ) / h :=
    min_eq_right (div_le_div_of_nonneg_left (by norm_num) hw' (by exact_mod_cast hwh))
  have hfl : (⌊(w : ℚ) * ((128 : ℚ) / h)⌋).toNat = 128 := by
    have hrfl : (resizeImage w h 128).width = (⌊(w : ℚ) * resizeScale w h 128⌋).toNat := rfl
    rw [hrfl, hmin] at hfull
    exact hfull
  have hint : (128 : ℤ) ≤ ⌊(w : ℚ) * ((128 : ℚ) / h)⌋ := by omega
  have hq : (128 : ℚ) ≤ (w : ℚ) * ((128 : ℚ) / h) := by
    calc (128 : ℚ) = ((128 : ℤ) : ℚ) := by norm_num
      _ ≤ (⌊(w : ℚ) * ((128 : ℚ) / h)⌋ : ℚ) := by exact_mod_cast hint
      _ ≤ _ := Int.floor_le _
  rw [mul_div_assoc'] at hq
  have hmul : (128 : ℚ) * h ≤ (w : ℚ) * 128 := (le_div_iff₀ hh').mp hq
  have : (h : ℚ) ≤ (w : ℚ) := by linarith
  exact_mod_cast this

theorem resize_height_full_le (w h : ℕ) (hw : 0 < w) (hh : 0 < h) (hwh : h ≤ w)
    (hfull : (resizeImage w h 128).height = 128) : w ≤ h := by
  have hw' : (0 : ℚ) < w := by exact_mod_cast hw
  have hh' : (0 : ℚ) < h := by exact_mod_cast hh
  have hmin : resizeScale w h 128 = (128 : ℚ) / w :=
    min_eq_left (div_le_div_of_nonneg_left (by norm_num) hh' (by exact_mod_cast hwh))
  have hfl : (⌊(h : ℚ) * ((128 : ℚ) / w)⌋).toNat = 128 := by
    have hrfl : (resizeImage w h 128).height = (⌊(h : ℚ) * resizeScale w h 128⌋).toNat := rfl
    rw [hrfl, hmin] at hfull
    exact hfull
  have hint : (128 : ℤ) ≤ ⌊(h : ℚ) * ((128 : ℚ) / w)⌋ := by omega
  have hq : (128 : ℚ) ≤ (h : ℚ) * ((128 : ℚ) / w) := by
    calc (128 : ℚ) = ((128 : ℤ) : ℚ) := by norm_num
      _ ≤ (⌊(h : ℚ) * ((128 : ℚ) / w)⌋ : ℚ) := by exact_mod_cast hint
      _ ≤ _ := Int.floor_le _
  rw [mul_div_assoc'] at hq
  have hmul : (128 : ℚ) * w ≤ (h : ℚ) * 128 := (le_div_iff₀ hw').mp hq
  have : (w : ℚ) ≤ (h : ℚ) := by linarith
  exact_mod_cast this

/-- C3 counterexample: a 256×128 input yields a canvas whose allocated
extent is 128×64, not 128×128 — lines 68-69 of `server.js` reassign the
canvas dimensions to the scaled content size before drawing. -/
theorem c3_counterexample :
    resizeImage 256 128 128 ≠ { width := 128, height := 128 } ∧
    resizeImage 256 128 128 = { width := 128, height := 64 } := by
  have hs : resizeScale 256 128 128 = 1 / 2 := by
    unfold resizeScale
    push_cast
    rw [min_eq_left (by norm_num)]
    norm_num
  have he : resizeImage 256 128 128 = { width := 128, height := 64 } :=
    resizeImage_eq 256 128 128 128 64 (1 / 2) hs (by push_cast; norm_num)
      (by push_cast; norm_num) (by push_cast; norm_num) (by push_cast; norm_num)
  refine ⟨?_, he⟩
  rw [he]
  intro hcontra
  exact absurd (congrArg CanvasDims.height hcontra) (by norm_num)

/-- C3 (amended): the canvas returned by `resizeImage` has allocated extent
`floor(w·scale) × floor(h·scale)` — the scaled content size — which never
exceeds 128 on either axis, and a non-square input never fills the full
128×128 extent.  (The converse is not asserted: in the source's IEEE-double
arithmetic even a square input can land one pixel short, e.g. a 49×49 input
yields a 127×127 canvas because `49 * (128/49)` floors to 127 in doubles.) -/
theorem c3_canvas_extent (w h : ℕ) (hw : 0 < w) (hh : 0 < h) :
    (resizeImage w h 128 =
      { width := (⌊(w : ℚ) * resizeScale w h 128⌋).toNat,
        height := (⌊(h : ℚ) * resizeScale w h 128⌋).toNat }) ∧
    (resizeImage w h 128).width ≤ 128 ∧
    (resizeImage w h 128).height ≤ 128 ∧
    (w ≠ h → resizeImage w h 128 ≠ { width := 128, height := 128 }) := by
  refine ⟨rfl, resize_width_le w h hw, resize_height_le w h hh, ?_⟩
  intro hne hb
  have hbw : (resizeImage w h 128).width = 128 := by rw [hb]
  have hbh : (resizeImage w h 128).height = 128 := by rw [hb]
  rcases le_total w h with hwh | hwh
  · exact hne (le_antisymm hwh (resize_width_full_le w h hw hh hwh hbw))
  · exact hne (le_antisymm (resize_height_full_le w h hw hh hwh hbh) hwh)

/-- Closed instance of `c3_canvas_extent`: the non-square 256×128 input does
not fill the full 128×128 extent. -/
theorem c3_canvas_extent_witness :
    resizeImage 256 128 128 ≠ { width := 128, height := 128 } :=
  (c3_canvas_extent 256 128 (by norm_num) (by norm_num)).2.2.2 (by norm_num)

/-- C5 counterexample: for a 1000×999 input the output is 128×127, and the
aspect ratios rounded to 2 decimals differ: `round(128/127, 2) = 1.01` while
`round(1000/999, 2) = 1.00`, refuting the claimed equality
`round(outW/outH, 2) = round(w/h, 2)`. -/
theorem c5_counterexample :
    resizeImage 1000 999 128 = { width := 128, height := 127 } ∧
    roundTo 2 ((128 : ℚ) / 127) = 101 / 100 ∧
    roundTo 2 ((1000 : ℚ) / 999) = 1 ∧
    roundTo 2 ((128 : ℚ) / 127) ≠ roundTo 2 ((1000 : ℚ) / 999) := by
  have hs : resizeScale 1000 999 128 = 16 / 125 := by
    unfold resizeScale
    push_cast
    rw [min_eq_left (by norm_num)]
    norm_num
  have h1 : roundTo 2 ((128 : ℚ) / 127) = ((101 : ℤ) : ℚ) / 10 ^ 2 :=
    roundTo_eq_of_bounds 2 ((128 : ℚ) / 127) 101 (by norm_num) (by norm_num)
  have h2 : roundTo 2 ((1000 : ℚ) / 999) = ((100 : ℤ) : ℚ) / 10 ^ 2 :=
    roundTo_eq_of_bounds 2 ((1000 : ℚ) / 999) 100 (by norm_num) (by norm_num)
  refine ⟨resizeImage_eq 1000 999 128 128 127 (16 / 125) hs (by push_cast; norm_num)
      (by push_cast; norm_num) (by push_cast; norm_num) (by push_cast; norm_num),
    ?_, ?_, ?_⟩
  · rw [h1]; norm_num
  · rw [h2]; norm_num
  · rw [h1, h2]; norm_num

/-- C5 (amended): `resizeImage` computes `scale = min(maxSize/w, maxSize/h)`
and output dimensions `floor(w·scale)`, `floor(h·scale)`; these never exceed
128 on either axis, and the larger axis lands within one pixel of 128 (at
least 127).  In exact arithmetic the larger axis is exactly 128, but the
source's IEEE-double quotient can floor one pixel lower — e.g. a 100×161
input yields 79×127 because `161 * (128/161)` floors to 127 in doubles — so
only the one-pixel band is asserted.  Aspect ratio is preserved only up to
the flooring of the smaller axis: the 2-decimal-rounded ratios of output and
input can differ, as `c5_counterexample` shows. -/
theorem c5_resize_dims (w h : ℕ) (hw : 0 < w) (hh : 0 < h) :
    (resizeImage w h 128).width = (⌊(w : ℚ) * resizeScale w h 128⌋).toNat ∧
    (resizeImage w h 128).height = (⌊(h : ℚ) * resizeScale w h 128⌋).toNat ∧
    (resizeImage w h 128).width ≤ 128 ∧
    (resizeImage w h 128).height ≤ 128 ∧
    127 ≤ max (resizeImage w h 128).width (resizeImage w h 128).height := by
  refine ⟨rfl, rfl, resize_width_le w h hw, resize_height_le w h hh, ?_⟩
  rcases le_total w h with hwh | hwh
  · calc (127 : ℕ) ≤ 128 := by norm_num
      _ = (resizeImage w h 128).height := (resize_height_exact w h hw hh hwh).symm
      _ ≤ _ := le_max_right _ _
  · calc (127 : ℕ) ≤ 128 := by norm_num
      _ = (resizeImage w h 128).width := (resize_width_exact w h hw hh hwh).symm
      _ ≤ _ := le_max_left _ _

/-- Closed instance of `c5_resize_dims` at the concrete input 256×128. -/
theorem c5_resize_dims_witness :
    (resizeImage 256 128 128).width ≤ 128 ∧
    127 ≤ max (resizeImage 256 128 128).width (resizeImage 256 128 128).height :=
  ⟨(c5_resize_dims 256 128 (by norm_num) (by norm_num)).2.2.1,
    (c5_resize_dims 256 128 (by norm_num) (by norm_num)).2.2.2.2⟩

/-- C10: an input strictly smaller than 128 on both axes is upscaled: the
scale factor exceeds 1 and both output dimensions are at least the input
dimensions. -/
theorem c10_upscales_small (w h : ℕ) (hwpos : 0 < w) (hhpos : 0 < h)
    (hw : w < 128) (hh : h < 128) :
    1 < resizeScale w h 128 ∧
    w ≤ (resizeImage w h 128).width ∧ h ≤ (resizeImage w h 128).height := by
  have hw' : (0 : ℚ) < w := by exact_mod_cast hwpos
  have hh' : (0 : ℚ) < h := by exact_mod_cast hhpos
  have hs : 1 < resizeScale w h 128 := by
    apply lt_min
    · exact (one_lt_div hw').mpr (by exact_mod_cast hw)
    · exact (one_lt_div hh').mpr (by exact_mod_cast hh)
  refine ⟨hs, ?_, ?_⟩
  · show w ≤ (⌊(w : ℚ) * resizeScale w h 128⌋).toNat
    have hq : (w : ℚ) ≤ (w : ℚ) * resizeScale w h 128 :=
      le_mul_of_one_le_right hw'.le hs.le
    have hz : (w : ℤ) ≤ ⌊(w : ℚ) * resizeScale w h 128⌋ :=
      Int.le_floor.mpr (by exact_mod_cast hq)
    omega
  · show h ≤ (⌊(h : ℚ) * resizeScale w h 128⌋).toNat
    have hq : (h : ℚ) ≤ (h : ℚ) * resizeScale w h 128 :=
      le_mul_of_one_le_right hh'.le hs.le
    have hz : (h : ℤ) ≤ ⌊(h : ℚ) * resizeScale w h 128⌋ :=
      Int.le_floor.mpr (by exact_mod_cast hq)
    omega

/-- Closed instance of `c10_upscales_small` at the concrete input 100×50. -/
theorem c10_upscales_small_witness :
    1 < resizeScale 100 50 128 ∧ 100 ≤ (resizeImage 100 50 128).width :=
  ⟨(c10_upscales_small 100 50 (by norm_num) (by norm_num) (by norm_num)
      (by norm_num)).1,
    (c10_upscales_small 100 50 (by norm_num) (by norm_num) (by norm_num)
      (by norm_num)).2.1⟩

/-! ### Helper lemmas for the data-URI header matcher -/

theorem dropLit_self_append (lit rest : List Char) :
    dropLit lit (lit ++ rest) = some rest := by
  induction lit with
  | nil => rfl
  | cons c cs ih => simp [dropLit, ih]

theorem takeWhile_append_stop (p : Char → Bool) (l1 l2 : List Char) (c : Char)
    (h1 : ∀ x ∈ l1, p x = true) (hc : p c = false) :
    (l1 ++ c :: l2).takeWhile p = l1 := by
  induction l1 with
  | nil => simp [List.takeWhile_cons, hc]
  | cons a as ih =>
    have ha : p a = true := h1 a (by simp)
    rw [List.cons_append, List.takeWhile_cons, ha]
    simp only [if_true]
    rw [ih (fun x hx => h1 x (by simp [hx]))]

theorem dropWhile_append_stop (p : Char → Bool) (l1 l2 : List Char) (c : Char)
    (h1 : ∀ x ∈ l1, p x = true) (hc : p c = false) :
    (l1 ++ c :: l2).dropWhile p = c :: l2 := by
  induction l1 with
  | nil => simp [List.dropWhile_cons, hc]
  | cons a as ih =>
    have ha : p a = true := h1 a (by simp)
    rw [List.cons_append, List.dropWhile_cons, ha]
    simp only [if_true]
    exact ih (fun x hx => h1 x (by simp [hx]))

theorem stripDataHeader_strip (s : String) (rest tail : List Char)
    (h1 : dropLit "data:image/".toList s.toList = some rest)
    (h2 : rest.takeWhile isWordChar ≠ [])
    (h4 : dropLit ";base64,".toList (rest.dropWhile isWordChar) = some tail) :
    stripDataHeader s = String.mk tail := by
  unfold stripDataHeader
  rw [h1]
  show (if rest.takeWhile isWordChar = [] then s
    else match dropLit ";base64,".toList (rest.dropWhile isWordChar) with
      | none => s
      | some tail => String.mk tail) = String.mk tail
  rw [if_neg h2, h4]

/-- C4 counterexample: neither `data:IMAGE/PNG;base64,` (uppercase in the
fixed literal) nor `data:image/x-icon;base64,` (media-type token with a
character outside `\w`) is stripped, and in both cases the decoded bytes
differ from the decode of the bare payload `AAAA`. -/
theorem c4_counterexample :
    stripDataHeader "data:IMAGE/PNG;base64,AAAA" ≠ "AAAA" ∧
    base64DecodedBytes "data:IMAGE/PNG;base64,AAAA" ≠ base64DecodedBytes "AAAA" ∧
    stripDataHeader "data:image/x-icon;base64,AAAA" ≠ "AAAA" ∧
    base64DecodedBytes "data:image/x-icon;base64,AAAA" ≠
      base64DecodedBytes "AAAA" := by
  refine ⟨?_, ?_, ?_, ?_⟩ <;> decide

/-- C4 (amended): the stripped form of `data:image/<t>;base64,<p>` — with the
literal `data:image/` matched case-sensitively and a non-empty token `t` of
word characters (`[A-Za-z0-9_]`, so the token itself may use either case) —
is exactly the payload `p`, hence its decoded bytes equal the permissive
decode of `p`, and equal `loadImageFromBase64`'s decode of `p` alone
whenever `p` itself carries no data-URI header. -/
theorem c4_data_header_strip (p t : String) (hne : t.toList ≠ [])
    (hw : ∀ c ∈ t.toList, isWordChar c = true) :
    stripDataHeader ("data:image/" ++ t ++ ";base64," ++ p) = p ∧
    base64DecodedBytes ("data:image/" ++ t ++ ";base64," ++ p) =
      nodeB64Decode p ∧
    (stripDataHeader p = p →
      base64DecodedBytes ("data:image/" ++ t ++ ";base64," ++ p) =
        base64DecodedBytes p) := by
  have hsemi : isWordChar ';' = false := by decide
  have htl : ("data:image/" ++ t ++ ";base64," ++ p).toList =
      "data:image/".toList ++ (t.toList ++ (';' :: ("base64,".toList ++ p.toList))) := by
    show "data:image/".toList ++ t.toList ++ (';' :: "base64,".toList) ++ p.toList = _
    simp [List.append_assoc]
  have hmain : stripDataHeader ("data:image/" ++ t ++ ";base64," ++ p) = p := by
    have hstrip := stripDataHeader_strip ("data:image/" ++ t ++ ";base64," ++ p)
      (t.toList ++ (';' :: ("base64,".toList ++ p.toList))) p.toList
      (by rw [htl]; exact dropLit_self_append _ _)
      (by rw [takeWhile_append_stop isWordChar t.toList _ ';' hw hsemi]; exact hne)
      (by
        rw [dropWhile_append_stop isWordChar t.toList _ ';' hw hsemi]
        show dropLit ";base64,".toList (";base64,".toList ++ p.toList) = some p.toList
        exact dropLit_self_append _ _)
    rw [hstrip]
    rfl
  refine ⟨hmain, ?_, ?_⟩
  · unfold base64DecodedBytes
    rw [hmain]
  · intro hp
    unfold base64DecodedBytes
    rw [hmain, hp]

/-- Closed instance of `c4_data_header_strip` with token `PNG` and payload
`AAAA`: the prefixed and bare forms decode to the same bytes. -/
theorem c4_data_header_strip_witness :
    stripDataHeader ("data:image/" ++ "PNG" ++ ";base64," ++ "AAAA") = "AAAA" ∧
    base64DecodedBytes ("data:image/" ++ "PNG" ++ ";base64," ++ "AAAA") =
      base64DecodedBytes "AAAA" :=
  ⟨(c4_data_header_strip "AAAA" "PNG" (by decide) (by decide)).1,
    (c4_data_header_strip "AAAA" "PNG" (by decide) (by decide)).2.2 (by decide)⟩

/-- C6: for every non-negative distance, the rounded similarity
`clamp(0, 100, (1 - d)·100)` lies in `[0, 100]`; on `[0, 1]` the
pre-rounding similarity is the affine function `(1 - d)·100` and is strictly
decreasing in the distance. -/
theorem c6_similarity_bounds (d : ℚ) (hd : 0 ≤ d) :
    ((comparisonResult d).similarity = some (roundTo 2 (similarityRaw d)) ∧
      0 ≤ roundTo 2 (similarityRaw d) ∧ roundTo 2 (similarityRaw d) ≤ 100) ∧
    (d ≤ 1 → similarityRaw d = (1 - d) * 100) ∧
    (∀ d2 : ℚ, d < d2 → d2 ≤ 1 → similarityRaw d2 < similarityRaw d) := by
  have haffine : ∀ x : ℚ, 0 ≤ x → x ≤ 1 → similarityRaw x = (1 - x) * 100 := by
    intro x hx0 hx1
    unfold similarityRaw
    rw [min_eq_right (by nlinarith), max_eq_right (by nlinarith)]
  have hlo : 0 ≤ similarityRaw d := le_max_left 0 _
  have hhi : similarityRaw d ≤ 100 :=
    max_le (by norm_num) (min_le_left _ _)
  refine ⟨⟨rfl, ?_, ?_⟩, haffine d hd, ?_⟩
  · unfold roundTo
    apply div_nonneg _ (by positivity)
    have h0 : round (0 : ℚ) ≤ round (similarityRaw d * 10 ^ 2) :=
      round_mono_q (by nlinarith)
    rw [round_zero] at h0
    exact_mod_cast h0
  · unfold roundTo
    rw [div_le_iff₀ (by positivity)]
    have h1 : round (similarityRaw d * 10 ^ 2) ≤ round ((10000 : ℚ)) :=
      round_mono_q (by nlinarith)
    rw [show (10000 : ℚ) = ((10000 : ℤ) : ℚ) by norm_num, round_intCast] at h1
    have : ((round (similarityRaw d * 10 ^ 2) : ℤ) : ℚ) ≤ 10000 := by
      exact_mod_cast h1
    linarith
  · intro d2 hlt hle
    rw [haffine d hd (le_trans hlt.le hle), haffine d2 (le_trans hd hlt.le) hle]
    linarith

/-- Closed instance of `c6_similarity_bounds` at distance `0.3`, with the
strict-decrease clause instantiated at `0.5`. -/
theorem c6_similarity_bounds_witness :
    (0 : ℚ) ≤ roundTo 2 (similarityRaw (3 / 10)) ∧
    roundTo 2 (similarityRaw (3 / 10)) ≤ 100 ∧
    similarityRaw (1 / 2) < similarityRaw (3 / 10) :=
  ⟨(c6_similarity_bounds (3 / 10) (by norm_num)).1.2.1,
    (c6_similarity_bounds (3 / 10) (by norm_num)).1.2.2,
    (c6_similarity_bounds (3 / 10) (by norm_num)).2.2 (1 / 2) (by norm_num)
      (by norm_num)⟩

/-- C8 counterexample: a `/compare` request with `base64Image` missing, sent
before the models have loaded, is answered with the 503 model-not-ready
response, not with a 400 — the `modelsLoaded` gate precedes validation. -/
theorem c8_counterexample :
    compareRoute false (some "http://example.com/a.jpg") none =
      Except.error modelNotReady503 ∧
    modelNotReady503.status = 503 :=
  ⟨rfl, rfl⟩

/-- C8 (amended): once the models are loaded, every `/compare` request with a
missing field or a non-`http(s)` `imageUrl` is rejected with a 400 response;
and for any model state such a request never reaches the acquisition stage
(`Except.ok ()`), so no network call or acquisition work is performed.
(When the models are not loaded the rejection is the 503 instead.) -/
theorem c8_validation_rejects (url b64 : Option String)
    (h : url = none ∨ b64 = none ∨
      ¬ (jsStartsWith (url.getD "") "http://" ∨ jsStartsWith (url.getD "") "https://")) :
    (∃ e, compareRoute true url b64 = Except.error e ∧ e.status = 400) ∧
    (∀ ml : Bool, compareRoute ml url b64 ≠ Except.ok ()) := by
  have hkey : ∃ e, compareRoute true url b64 = Except.error e ∧ e.status = 400 := by
    by_cases hmiss : (jsFalsy url || jsFalsy b64) = true
    · exact ⟨missingFields400, by simp [compareRoute, hmiss], rfl⟩
    · have hscheme : ¬ (jsStartsWith (url.getD "") "http://"
          ∨ jsStartsWith (url.getD "") "https://") := by
        rcases h with h | h | h
        · subst h; simp [jsFalsy] at hmiss
        · subst h; simp [jsFalsy] at hmiss
        · exact h
      exact ⟨invalidUrl400, by simp [compareRoute, hmiss, hscheme], rfl⟩
  refine ⟨hkey, ?_⟩
  intro ml
  cases ml
  · simp [compareRoute]
  · obtain ⟨e, he, _⟩ := hkey
    rw [he]
    intro hcontra
    exact Except.noConfusion hcontra

/-- Closed instance of `c8_validation_rejects` at a request whose `imageUrl`
uses the `ftp://` scheme. -/
theorem c8_validation_rejects_witness :
    compareRoute true (some "ftp://example.com/a.jpg") (some "xyz") ≠
      Except.ok () :=
  (c8_validation_rejects (some "ftp://example.com/a.jpg") (some "xyz")
    (Or.inr (Or.inr (by decide)))).2 true

end FacialApp
